import Mathlib

/-!
# Verification of the EcoStats chatbot component (app_streamlit.py)

A shallow embedding of the chatbot / conversational-state component of
`app_streamlit.py`: the static knowledge base (`STATION_STATS_DATA`,
`VARIABLE_DESCRIPTIONS`, `CHART_DESCRIPTIONS`, the ordinal and index maps),
the session-state initialization, the button-driven stage router, and the
`load_data` CSV loader.  Python strings are Lean `String`s; Python floats,
which in the source are always decimal literals with at most seven decimal
digits, are embedded as the exact rationals those literals denote; Python
dicts (insertion-ordered, unique keys) are association lists in source
order, looked up with `List.lookup`.

String manipulation is implemented over `List Char` (Lean's `String`
library functions do not reduce in the kernel); a string's character list
is its code-point sequence, matching Python string semantics.
-/

/-! ## Generic string and number utilities -/

/-- Code-point lexicographic strict order on character lists: the order
Python uses to compare `str` values (and hence the order of `sorted`). -/
def charListLt : List Char → List Char → Bool
  | [], [] => false
  | [], _ :: _ => true
  | _ :: _, [] => false
  | a :: as, b :: bs =>
    if a.val < b.val then true
    else if b.val < a.val then false
    else charListLt as bs

/-- Python `a < b` on strings. -/
def strLt (a b : String) : Bool := charListLt a.data b.data

/-- Insert a string into an already sorted list (ascending `strLt`). -/
def insertSorted (s : String) : List String → List String
  | [] => [s]
  | x :: xs => if strLt s x then s :: x :: xs else x :: insertSorted s xs

/-- Model of Python `sorted` on a list of strings: insertion sort by
code-point lexicographic order. -/
def sortStrings (l : List String) : List String := l.foldr insertSorted []

/-- ASCII lowercasing of one character (the only case mapping needed by the
source's identifiers and Spanish keywords; Python `str.lower` agrees on
them). -/
def charLower (c : Char) : Char := c.toLower

/-- Python `s.lower()`. -/
def lowerStr (s : String) : String := String.mk (s.data.map charLower)

/-- `needle` occurs as a contiguous substring of the second list
(Python `needle in hay`). -/
def containsSub (needle : List Char) : List Char → Bool
  | [] => List.isPrefixOf needle []
  | c :: rest => List.isPrefixOf needle (c :: rest) || containsSub needle rest

/-- Python `needle in hay` on strings. -/
def strContains (hay needle : String) : Bool := containsSub needle.data hay.data

/-- Split a character list on a separator character (model of
`str.split(sep)`); the accumulator holds the current piece reversed. -/
def splitOnCharAux (sep : Char) : List Char → List Char → List (List Char)
  | [], acc => [acc.reverse]
  | c :: rest, acc =>
    if c == sep then acc.reverse :: splitOnCharAux sep rest []
    else splitOnCharAux sep rest (c :: acc)

/-- Split a character list on a separator character. -/
def splitOnChar (sep : Char) (l : List Char) : List (List Char) :=
  splitOnCharAux sep l []

/-- Python-style whitespace test for the characters that occur in the data. -/
def isWs (c : Char) : Bool := c == ' ' || c == '\t' || c == '\n' || c == '\r'

/-- Python `str.strip()` on a character list. -/
def trimChars (l : List Char) : List Char :=
  ((l.dropWhile isWs).reverse.dropWhile isWs).reverse

/-- Python `str.strip()`. -/
def strTrim (s : String) : String := String.mk (trimChars s.data)

/-- Value of a nonempty all-digit character list (`none` otherwise). -/
def digitsValAux : List Char → Nat → Option Nat
  | [], acc => some acc
  | c :: rest, acc =>
    if c.isDigit then digitsValAux rest (acc * 10 + (c.val.toNat - 48)) else none

/-- Value of a nonempty all-digit character list (`none` otherwise). -/
def digitsVal (l : List Char) : Option Nat :=
  if l.isEmpty then none else digitsValAux l 0

/-- Python `"sep".join(parts)` (via Lean's `String.intercalate`). -/
def joinWith (sep : String) (parts : List String) : String :=
  String.intercalate sep parts

/-- The exact rational denoted by the source's two-decimal float literal
`w.cc` (every statistic in `STATION_STATS_DATA` is written with exactly two
decimals): `d2 36 67` is the literal `36.67`. -/
def d2 (w c : Nat) : ℚ := mkRat (w * 100 + c) 100

/-- Digits of `n` left-padded with zeros to width `k`. -/
def padNat (k : Nat) (n : Nat) : String :=
  let s := toString n
  String.mk (List.replicate (k - s.length) '0') ++ s

/-- The integer hundredths of a nonnegative rational (exact on the
two-decimal statistic values; integer `num`/`den` arithmetic so that it
computes in the kernel). -/
def cent100 (q : ℚ) : Int := q.num * 100 / q.den

/-- Python `f"{v:.2f}"` for the (nonnegative, exactly two-decimal) statistic
values of the knowledge base. -/
def format2 (q : ℚ) : String :=
  let n := (cent100 q).toNat
  toString (n / 100) ++ "." ++ padNat 2 (n % 100)

/-- The integer millionths of a nonnegative rational, rounding halves up
(add-one-then-halve on the exact two-millionths). -/
def micro6 (q : ℚ) : Int := (q.num * 2000000 / q.den + 1) / 2

/-- Six-decimal rendering of a nonnegative rational, rounding halves up. -/
def format6Pos (q : ℚ) : String :=
  let n := (micro6 q).toNat
  toString (n / 1000000) ++ "." ++ padNat 6 (n % 1000000)

/-- Python `f"{v:.6f}"` for the station coordinates: six decimals, rounding
halves away from zero (this reproduces CPython's output on every coordinate
literal of the source, including the seven-decimal ones). -/
def format6 (q : ℚ) : String :=
  if q < 0 then "-" ++ format6Pos (-q) else format6Pos q

/-- Python `str.capitalize()`. -/
def capitalizeStr (s : String) : String :=
  match s.data with
  | [] => ""
  | c :: rest => String.mk (c.toUpper :: rest.map charLower)

/-! ## The static knowledge base (`STATION_STATS_DATA`) -/

/-- A value of one of the untyped per-variable statistics dicts: a float
statistic or the unit string. -/
inductive FieldVal where
  | num (q : ℚ)
  | str (s : String)
deriving DecidableEq

/-- One station's record in `STATION_STATS_DATA`: coordinates and the
per-variable statistics dicts, in source order. -/
structure StationProfile where
  latitud : ℚ
  longitud : ℚ
  stats : List (String × List (String × FieldVal))
deriving DecidableEq

/-- `STATION_STATS_DATA` (app_streamlit.py lines 767-900), entries and
fields in source order.  Coordinates and statistics are the exact rationals
of the source's decimal literals (`mkRat a b` = a/b; `d2 w c` = `w.cc`). -/
def STATION_STATS_DATA : List (String × StationProfile) := [
  ("Barranca-RacimoOrquidea",
    { latitud := mkRat 7068842 1000000, longitud := mkRat (-7385138) 100000,
      stats := [
        ("temperatura", [("max", .num (d2 36 67)), ("min", .num (d2 17 44)),
          ("mean", .num (d2 27 87)), ("unit", .str "°C")]),
        ("humedad", [("max", .num (d2 95 40)), ("min", .num (d2 45 30)),
          ("mean", .num (d2 77 54)), ("unit", .str "%")]),
        ("precipitacion", [("max", .num (d2 30 60)), ("sum", .num (d2 655 60)),
          ("mean", .num (d2 0 12)), ("unit", .str "mm")]),
        ("pm2_5", [("max", .num (d2 54 47)), ("min", .num (d2 0 0)),
          ("mean", .num (d2 9 13)), ("unit", .str "µg/m³")]),
        ("ica", [("max", .num (d2 128 49)), ("min", .num (d2 0 0)),
          ("mean", .num (d2 28 25)), ("unit", .str "")]),
        ("viento_velocidad", [("max", .num (d2 16 35)), ("min", .num (d2 0 0)),
          ("mean", .num (d2 3 38)), ("unit", .str "km/h")]),
        ("presion", [("max", .num (d2 1019 57)), ("min", .num (d2 1003 62)),
          ("mean", .num (d2 1010 60)), ("unit", .str "hPa")])] }),
  ("Halley UIS",
    { latitud := mkRat 713908 100000, longitud := mkRat (-7312137) 100000,
      stats := [
        ("temperatura", [("max", .num (d2 31 17)), ("min", .num (d2 22 28)),
          ("mean", .num (d2 26 72)), ("unit", .str "°C")]),
        ("humedad", [("max", .num (d2 96 0)), ("min", .num (d2 45 0)),
          ("mean", .num (d2 79 36)), ("unit", .str "%")]),
        ("precipitacion", [("max", .num (d2 0 80)), ("sum", .num (d2 108 60)),
          ("mean", .num (d2 0 2)), ("unit", .str "mm")]),
        ("pm2_5", [("max", .num (d2 2 43)), ("min", .num (d2 1 45)),
          ("mean", .num (d2 1 94)), ("unit", .str "µg/m³")]),
        ("ica", [("max", .num (d2 7 89)), ("min", .num (d2 4 71)),
          ("mean", .num (d2 6 30)), ("unit", .str "")]),
        ("viento_velocidad", [("max", .num (d2 16 9)), ("min", .num (d2 0 0)),
          ("mean", .num (d2 1 96)), ("unit", .str "km/h")]),
        ("presion", [("max", .num (d2 1016 49)), ("min", .num (d2 1003 42)),
          ("mean", .num (d2 1011 17)), ("unit", .str "hPa")])] }),
  ("RACIMO-SOCORROCONS4",
    { latitud := mkRat 6461252 1000000, longitud := mkRat (-7325759) 100000,
      stats := [
        ("temperatura", [("max", .num (d2 30 78)), ("min", .num (d2 15 72)),
          ("mean", .num (d2 21 59)), ("unit", .str "°C")]),
        ("humedad", [("max", .num (d2 96 70)), ("min", .num (d2 36 50)),
          ("mean", .num (d2 81 4)), ("unit", .str "%")]),
        ("precipitacion", [("max", .num (d2 12 0)), ("sum", .num (d2 281 20)),
          ("mean", .num (d2 0 5)), ("unit", .str "mm")]),
        ("pm2_5", [("max", .num (d2 322 42)), ("min", .num (d2 0 0)),
          ("mean", .num (d2 2 56)), ("unit", .str "µg/m³")]),
        ("ica", [("max", .num (d2 372 27)), ("min", .num (d2 0 0)),
          ("mean", .num (d2 8 16)), ("unit", .str "")]),
        ("viento_velocidad", [("max", .num (d2 11 59)), ("min", .num (d2 0 0)),
          ("mean", .num (d2 3 23)), ("unit", .str "km/h")]),
        ("presion", [("max", .num (d2 1023 3)), ("min", .num (d2 1009 52)),
          ("mean", .num (d2 1017 49)), ("unit", .str "hPa")])] }),
  ("RACiMo BarbosaAir2.1",
    { latitud := mkRat 592901 100000, longitud := mkRat (-7361547) 100000,
      stats := [
        ("temperatura", [("max", .num (d2 31 78)), ("min", .num (d2 15 89)),
          ("mean", .num (d2 23 94)), ("unit", .str "°C")]),
        ("humedad", [("max", .num (d2 82 0)), ("min", .num (d2 29 20)),
          ("mean", .num (d2 61 88)), ("unit", .str "%")]),
        ("precipitacion", [("max", .num (d2 0 0)), ("sum", .num (d2 0 0)),
          ("mean", .num (d2 0 0)), ("unit", .str "mm")]),
        ("pm2_5", [("max", .num (d2 305 55)), ("min", .num (d2 0 0)),
          ("mean", .num (d2 13 21)), ("unit", .str "µg/m³")]),
        ("ica", [("max", .num (d2 355 56)), ("min", .num (d2 0 0)),
          ("mean", .num (d2 36 33)), ("unit", .str "")]),
        ("viento_velocidad", [("max", .num (d2 6 47)), ("min", .num (d2 0 8)),
          ("mean", .num (d2 3 28)), ("unit", .str "km/h")]),
        ("presion", [("max", .num (d2 1049 99)), ("min", .num (d2 1016 28)),
          ("mean", .num (d2 1035 37)), ("unit", .str "hPa")])] }),
  ("RACiMo BarbosaCONS2",
    { latitud := mkRat 5949394 1000000, longitud := mkRat (-7360563) 100000,
      stats := [
        ("temperatura", [("max", .num (d2 30 6)), ("min", .num (d2 12 72)),
          ("mean", .num (d2 20 7)), ("unit", .str "°C")]),
        ("humedad", [("max", .num (d2 97 30)), ("min", .num (d2 31 60)),
          ("mean", .num (d2 80 28)), ("unit", .str "%")]),
        ("precipitacion", [("max", .num (d2 9 80)), ("sum", .num (d2 385 80)),
          ("mean", .num (d2 0 6)), ("unit", .str "mm")]),
        ("pm2_5", [("max", .num (d2 349 67)), ("min", .num (d2 0 0)),
          ("mean", .num (d2 5 68)), ("unit", .str "µg/m³")]),
        ("ica", [("max", .num (d2 451 16)), ("min", .num (d2 0 0)),
          ("mean", .num (d2 16 43)), ("unit", .str "")]),
        ("viento_velocidad", [("max", .num (d2 17 14)), ("min", .num (d2 0 0)),
          ("mean", .num (d2 2 81)), ("unit", .str "km/h")]),
        ("presion", [("max", .num (d2 1025 26)), ("min", .num (d2 1013 48)),
          ("mean", .num (d2 1020 40)), ("unit", .str "hPa")])] }),
  ("RACiMo BarrancaAIR1.1",
    { latitud := mkRat 7077814 1000000, longitud := mkRat (-7385829) 100000,
      stats := [
        ("temperatura", [("max", .num (d2 38 28)), ("min", .num (d2 23 50)),
          ("mean", .num (d2 30 36)), ("unit", .str "°C")]),
        ("humedad", [("max", .num (d2 96 50)), ("min", .num (d2 42 30)),
          ("mean", .num (d2 67 35)), ("unit", .str "%")]),
        ("precipitacion", [("max", .num (d2 0 0)), ("sum", .num (d2 0 0)),
          ("mean", .num (d2 0 0)), ("unit", .str "mm")]),
        ("pm2_5", [("max", .num (d2 357 39)), ("min", .num (d2 0 0)),
          ("mean", .num (d2 11 30)), ("unit", .str "µg/m³")]),
        ("ica", [("max", .num (d2 402 5)), ("min", .num (d2 0 0)),
          ("mean", .num (d2 33 47)), ("unit", .str "")]),
        ("viento_velocidad", [("max", .num (d2 8 59)), ("min", .num (d2 7 64)),
          ("mean", .num (d2 8 12)), ("unit", .str "km/h")]),
        ("presion", [("max", .num (d2 1024 30)), ("min", .num (d2 1018 46)),
          ("mean", .num (d2 1021 38)), ("unit", .str "hPa")])] }),
  ("RACiMo BucGuatiAIR5.1",
    { latitud := mkRat 6994449 1000000, longitud := mkRat (-73066086) 1000000,
      stats := [
        ("temperatura", [("max", .num (d2 28 11)), ("min", .num (d2 19 0)),
          ("mean", .num (d2 23 43)), ("unit", .str "°C")]),
        ("humedad", [("max", .num (d2 92 80)), ("min", .num (d2 52 0)),
          ("mean", .num (d2 76 98)), ("unit", .str "%")]),
        ("precipitacion", [("max", .num (d2 0 0)), ("sum", .num (d2 0 0)),
          ("mean", .num (d2 0 0)), ("unit", .str "mm")]),
        ("pm2_5", [("max", .num (d2 128 50)), ("min", .num (d2 0 0)),
          ("mean", .num (d2 6 33)), ("unit", .str "µg/m³")]),
        ("ica", [("max", .num (d2 187 36)), ("min", .num (d2 0 0)),
          ("mean", .num (d2 20 12)), ("unit", .str "")]),
        ("viento_velocidad", [("max", .num (d2 7 64)), ("min", .num (d2 5 48)),
          ("mean", .num (d2 6 56)), ("unit", .str "km/h")]),
        ("presion", [("max", .num (d2 1037 62)), ("min", .num (d2 1024 30)),
          ("mean", .num (d2 1030 96)), ("unit", .str "hPa")])] }),
  ("RACiMo BucSanAIR5",
    { latitud := mkRat 71386485 10000000, longitud := mkRat (-73122185) 1000000,
      stats := [
        ("temperatura", [("max", .num (d2 29 22)), ("min", .num (d2 21 94)),
          ("mean", .num (d2 25 38)), ("unit", .str "°C")]),
        ("humedad", [("max", .num (d2 82 30)), ("min", .num (d2 44 90)),
          ("mean", .num (d2 68 68)), ("unit", .str "%")]),
        ("precipitacion", [("max", .num (d2 0 0)), ("sum", .num (d2 0 0)),
          ("mean", .num (d2 0 0)), ("unit", .str "mm")]),
        ("pm2_5", [("max", .num (d2 62 34)), ("min", .num (d2 0 0)),
          ("mean", .num (d2 7 29)), ("unit", .str "µg/m³")]),
        ("ica", [("max", .num (d2 143 97)), ("min", .num (d2 0 0)),
          ("mean", .num (d2 22 85)), ("unit", .str "")]),
        ("viento_velocidad", [("max", .num (d2 5 48)), ("min", .num (d2 2 48)),
          ("mean", .num (d2 3 98)), ("unit", .str "km/h")]),
        ("presion", [("max", .num (d2 1049 99)), ("min", .num (d2 1037 63)),
          ("mean", .num (d2 1044 82)), ("unit", .str "hPa")])] }),
  ("RACiMo MalagaAIR3.1",
    { latitud := mkRat 6698055 1000000, longitud := mkRat (-7273542) 100000,
      stats := [
        ("temperatura", [("max", .num (d2 26 89)), ("min", .num (d2 11 83)),
          ("mean", .num (d2 18 89)), ("unit", .str "°C")]),
        ("humedad", [("max", .num (d2 100 0)), ("min", .num (d2 33 20)),
          ("mean", .num (d2 70 16)), ("unit", .str "%")]),
        ("precipitacion", [("max", .num (d2 0 0)), ("sum", .num (d2 0 0)),
          ("mean", .num (d2 0 0)), ("unit", .str "mm")]),
        ("pm2_5", [("max", .num (d2 24 54)), ("min", .num (d2 0 0)),
          ("mean", .num (d2 2 69)), ("unit", .str "µg/m³")]),
        ("ica", [("max", .num (d2 68 79)), ("min", .num (d2 0 0)),
          ("mean", .num (d2 8 74)), ("unit", .str "")]),
        ("viento_velocidad", [("max", .num (d2 2 48)), ("min", .num (d2 0 0)),
          ("mean", .num (d2 1 24)), ("unit", .str "km/h")]),
        ("presion", [("max", .num (d2 1043 76)), ("min", .num (d2 1028 1)),
          ("mean", .num (d2 1035 88)), ("unit", .str "hPa")])] }),
  ("RACiMo MalagaCONS3",
    { latitud := mkRat 6700839 1000000, longitud := mkRat (-72727615) 1000000,
      stats := [
        ("temperatura", [("max", .num (d2 28 44)), ("min", .num (d2 12 17)),
          ("mean", .num (d2 18 7)), ("unit", .str "°C")]),
        ("humedad", [("max", .num (d2 96 60)), ("min", .num (d2 31 30)),
          ("mean", .num (d2 75 70)), ("unit", .str "%")]),
        ("precipitacion", [("max", .num (d2 18 40)), ("sum", .num (d2 366 40)),
          ("mean", .num (d2 0 7)), ("unit", .str "mm")]),
        ("pm2_5", [("max", .num (d2 58 24)), ("min", .num (d2 0 0)),
          ("mean", .num (d2 2 83)), ("unit", .str "µg/m³")]),
        ("ica", [("max", .num (d2 135 91)), ("min", .num (d2 0 0)),
          ("mean", .num (d2 9 13)), ("unit", .str "")]),
        ("viento_velocidad", [("max", .num (d2 13 45)), ("min", .num (d2 0 0)),
          ("mean", .num (d2 1 74)), ("unit", .str "km/h")]),
        ("presion", [("max", .num (d2 1029 67)), ("min", .num (d2 1019 24)),
          ("mean", .num (d2 1024 87)), ("unit", .str "hPa")])] }),
  ("RACiMo SocConvAir4.1",
    { latitud := mkRat 64681354 10000000, longitud := mkRat (-7325675) 100000,
      stats := [
        ("temperatura", [("max", .num (d2 30 50)), ("min", .num (d2 19 39)),
          ("mean", .num (d2 24 50)), ("unit", .str "°C")]),
        ("humedad", [("max", .num (d2 83 70)), ("min", .num (d2 34 70)),
          ("mean", .num (d2 66 62)), ("unit", .str "%")]),
        ("precipitacion", [("max", .num (d2 0 0)), ("sum", .num (d2 0 0)),
          ("mean", .num (d2 0 0)), ("unit", .str "mm")]),
        ("pm2_5", [("max", .num (d2 82 66)), ("min", .num (d2 0 0)),
          ("mean", .num (d2 4 53)), ("unit", .str "µg/m³")]),
        ("ica", [("max", .num (d2 160 90)), ("min", .num (d2 0 0)),
          ("mean", .num (d2 14 34)), ("unit", .str "")]),
        ("viento_velocidad", [("max", .num (d2 5 66)), ("min", .num (d2 5 66)),
          ("mean", .num (d2 5 66)), ("unit", .str "km/h")]),
        ("presion", [("max", .num (d2 1023 43)), ("min", .num (d2 1023 43)),
          ("mean", .num (d2 1023 43)), ("unit", .str "hPa")])] })]

/-! ## The chatbot's knowledge maps (app_streamlit.py lines 902-1060) -/

/-- `unique_stations = sorted(list(STATION_STATS_DATA.keys()))`. -/
def unique_stations : List String := sortStrings (STATION_STATS_DATA.map Prod.fst)

/-- `station_count = len(unique_stations)`. -/
def station_count : Nat := unique_stations.length

/-- `station_index_map = {index + 1: station for index, station in
enumerate(unique_stations)}`. -/
def station_index_map : List (Nat × String) :=
  unique_stations.enum.map (fun p => (p.1 + 1, p.2))

/-- The lines `f"{i}. {station}"` of the numbered station list. -/
def numbered_lines_stations : List String :=
  station_index_map.map (fun p => toString p.1 ++ ". " ++ p.2)

/-- `numbered_list_str_stations = "\n".join([f"{i}. {station}" ...])`. -/
def numbered_list_str_stations : String := joinWith "\n" numbered_lines_stations

/-- `number_word_map_stations`: ordinal word or numeral → 1-based station
index. -/
def number_word_map_stations : List (String × Nat) := [
  ("primera", 1), ("1ra", 1), ("1", 1),
  ("segunda", 2), ("2da", 2), ("2", 2),
  ("tercera", 3), ("3ra", 3), ("3", 3),
  ("cuarta", 4), ("4ta", 4), ("4", 4),
  ("quinta", 5), ("5ta", 5), ("5", 5),
  ("sexta", 6), ("6ta", 6), ("6", 6),
  ("séptima", 7), ("septima", 7), ("7ma", 7), ("7", 7),
  ("octava", 8), ("8va", 8), ("8", 8),
  ("novena", 9), ("9na", 9), ("9", 9),
  ("décima", 10), ("decima", 10), ("10ma", 10), ("10", 10),
  ("onceava", 11), ("11va", 11), ("11", 11)]

/-- `VARIABLE_DESCRIPTIONS`: variable key → explanation text shown by the
per-variable detail stage. -/
def VARIABLE_DESCRIPTIONS : List (String × String) := [
  ("pm2_5", "**PM2.5 (µg/m³)**: Son las partículas contaminantes más peligrosas. El gráfico en 'Análisis por Estación' muestra una línea roja en **56 µg/m³**, que es el límite de riesgo."),
  ("temperatura", "**Temperatura (°C)**: Es el grado de calor. El gráfico en 'Análisis por Estación' usa puntos de colores (azul a rojo) para identificar fácilmente picos de calor o frío."),
  ("precipitacion", "**Precipitación (mm)**: Es la cantidad de lluvia. En 'Análisis por Estación', las métricas clave son la **Máxima** (cuánto llovió en 15 min) y la **Total Acumulada** en el mes."),
  ("humedad", "**Humedad (%)**: Afecta la sensación térmica. El gráfico de 'Humedad (Mapa de Calor)' en 'Análisis por Estación' es ideal para ver patrones (ej. '¿A qué hora del día es más húmedo?')."),
  ("viento_velocidad", "**Velocidad Viento (km/h)**: Un gráfico de línea que muestra las ráfagas. Lo encuentras en 'Análisis por Estación'."),
  ("viento_direccion", "**Dirección Viento (Rosa)**: Un gráfico polar que muestra la dirección *predominante* (de dónde viene el viento). Lo encuentras en 'Análisis por Estación'."),
  ("presion", "**Presión Barométrica (hPa)**: Una presión baja generalmente indica mal tiempo (tormentas); una presión alta indica buen tiempo estable."),
  ("ica", "**ICA (Índice de Calidad del Aire)**: Es un indicador que te dice qué tan limpio está el aire. El gráfico en 'Análisis por Estación' muestra bandas de colores (🟢, 🟡, 🟠, 🔴) para que veas el nivel de riesgo.")]

/-- One entry of `CHART_DESCRIPTIONS`: its title and description text.  The
`data` field of the source (a tiny example table fed to the plotting
library) is an opaque rendering input and is not part of the model. -/
structure ChartInfo where
  title : String
  description : String
deriving DecidableEq

/-- `CHART_DESCRIPTIONS`: chart-type key → title and explanation.  The
descriptions are the source's adjacent string literals concatenated. -/
def CHART_DESCRIPTIONS : List (String × ChartInfo) := [
  ("grafico_linea",
    { title := "📈 Gráfico de Línea (Series de Tiempo)",
      description := "Este gráfico (usado para PM2.5, Temperatura, Viento y Presión) es perfecto para ver **tendencias**.\n\n- **Eje X (Horizontal):** Muestra el tiempo (Días y Horas).\n- **Eje Y (Vertical):** Muestra el valor de la variable.\n\n**¿Cómo leerlo?** Simplemente sigue la línea. Si sube, el valor aumenta; si baja, disminuye. Es ideal para ver picos (valores máximos) y valles (valores mínimos) durante el mes." }),
  ("grafico_area",
    { title := "💧 Gráfico de Área (Precipitación)",
      description := "Este gráfico se usa para la **Precipitación (lluvia)**.\n\n- **Eje X (Horizontal):** Muestra el tiempo.\n- **Eje Y (Vertical):** Muestra cuántos milímetros (mm) de lluvia cayeron en ese registro.\n\n**¿Cómo leerlo?** Los picos altos significan lluvias fuertes. Las métricas sobre el gráfico son clave: 'Total Acumulada' te dice cuánta lluvia cayó en todo el mes." }),
  ("mapa_calor",
    { title := "🌡️ Mapa de Calor (Humedad)",
      description := "Este gráfico es excelente para encontrar **patrones diarios**.\n\n- **Eje X (Horizontal):** Muestra los días del mes.\n- **Eje Y (Vertical):** Muestra las 24 horas del día.\n- **Color:** La intensidad del color (más oscuro o más claro) muestra el valor de la humedad.\n\n**¿Cómo leerlo?** Busca bandas de color horizontales. Por ejemplo, si la franja de las '4:00' (4 AM) es siempre azul oscura, significa que la madrugada es consistentemente el momento más húmedo del día." }),
  ("rosa_vientos",
    { title := "🧭 Rosa de Vientos (Dirección del Viento)",
      description := "Este es un gráfico polar especial para entender el viento.\n\n- **Direcciones (N, S, E, O):** Muestra *de dónde* viene el viento (Ej. 'N' significa viento del norte).\n- **Longitud de las Barras:** Cuanto más larga es la barra en una dirección, más *frecuentemente* sopló el viento desde allí.\n- **Colores:** Los colores en cada barra indican qué tan *fuerte* (rápido) sopló el viento en esa dirección.\n\n**¿Cómo leerlo?** La dirección con la barra más larga es la dirección del viento predominante." }),
  ("bandas_ica",
    { title := "🟢 Gráfico de Bandas (ICA)",
      description := "Este gráfico (usado para el Índice de Calidad del Aire) te ayuda a entender el **nivel de riesgo** de un solo vistazo.\n\n- **Línea:** Muestra el valor promedio diario del ICA.\n- **Bandas de Colores:** Muestran los rangos de calidad del aire:\n  - 🟢 **Bueno (0-50):** Calidad del aire satisfactoria.\n  - 🟡 **Moderado (51-100):** Aceptable.\n  - 🟠 **Desfavorable (101-150):** Nocivo para grupos sensibles.\n  - 🔴 **Dañino (151+):** Nocivo para la salud." })]

/-- `VARIABLE_INDEX_MAP`: 1-based variable index → variable key. -/
def VARIABLE_INDEX_MAP : List (Nat × String) := [
  (1, "pm2_5"), (2, "temperatura"), (3, "precipitacion"), (4, "humedad"),
  (5, "viento_velocidad"), (6, "viento_direccion"), (7, "presion"), (8, "ica")]

/-- `numbered_list_str_vars`: the numbered variable list, each line
`f"{i}. {VARIABLE_DESCRIPTIONS[key].split(':')[0]}"`. -/
def numbered_list_str_vars : String :=
  joinWith "\n" (VARIABLE_INDEX_MAP.map (fun p =>
    toString p.1 ++ ". " ++
      String.mk (((splitOnChar ':' ((VARIABLE_DESCRIPTIONS.lookup p.2).getD "").data).headD []))))

/-- `VAR_MAP_QUERY`: query keyword → variable key, in source (insertion)
order; the scan order of the free-text variable matcher. -/
def VAR_MAP_QUERY : List (String × String) := [
  ("pm2.5", "pm2_5"), ("partículas", "pm2_5"), ("contaminación", "pm2_5"),
  ("temperatura", "temperatura"), ("temp", "temperatura"), ("calor", "temperatura"),
  ("humedad", "humedad"),
  ("precipitación", "precipitacion"), ("lluvia", "precipitacion"),
  ("viento", "viento_velocidad"), ("velocidad", "viento_velocidad"),
  ("dirección", "viento_direccion"), ("direccion", "viento_direccion"), ("rosa", "viento_direccion"),
  ("presión", "presion"), ("presion", "presion"),
  ("ica", "ica"), ("calidad del aire", "ica")]

/-- `number_word_map_vars`: ordinal word or numeral → 1-based variable
index. -/
def number_word_map_vars : List (String × Nat) := [
  ("primera", 1), ("1ra", 1), ("1", 1),
  ("segunda", 2), ("2da", 2), ("2", 2),
  ("tercera", 3), ("3ra", 3), ("3", 3),
  ("cuarta", 4), ("4ta", 4), ("4", 4),
  ("quinta", 5), ("5ta", 5), ("5", 5),
  ("sexta", 6), ("6ta", 6), ("6", 6),
  ("séptima", 7), ("septima", 7), ("7ma", 7), ("7", 7),
  ("octava", 8), ("8va", 8), ("8", 8)]

/-- `variable_friendly_map`: variable key → display name. -/
def variable_friendly_map : List (String × String) := [
  ("temperatura", "Temperatura"), ("humedad", "Humedad Relativa"),
  ("precipitacion", "Precipitación"), ("pm2_5", "PM2.5"),
  ("viento_velocidad", "Velocidad del Viento"), ("presion", "Presión Barométrica"),
  ("ica", "Índice de Calidad del Aire (ICA)")]

/-! ## Knowledge-base accessors -/

/-- `getStation(name)`: exact, case-sensitive lookup in
`STATION_STATS_DATA` (spec §4.4). -/
def getStation (name : String) : Option StationProfile :=
  STATION_STATS_DATA.lookup name

/-- The statistics dict of one variable at one station, when present. -/
def getVarStats (name v : String) : Option (List (String × FieldVal)) :=
  (getStation name).bind (fun p => p.stats.lookup v)

/-- The numeric field `k` of a statistics dict, when present and numeric. -/
def numField (r : List (String × FieldVal)) (k : String) : Option ℚ :=
  match r.lookup k with
  | some (FieldVal.num q) => some q
  | _ => none

/-- The `unit` field of a statistics dict (`""` when absent — the dicts of
the source always carry one). -/
def unitField (r : List (String × FieldVal)) : String :=
  match r.lookup "unit" with
  | some (FieldVal.str s) => s
  | _ => ""

/-- Modelled from the spec: `getStatistic(station, variable, statistic) ->
numeric value | not found` (§4.4) — the accessor itself is not a function
of this file's source (the source reads the dicts inline); per the spec a
miss (unknown station, variable absent at the station, or statistic key
absent for the variable) is an explicit `none`, never a substituted zero. -/
def getStatistic (name v stat : String) : Option ℚ :=
  match getVarStats name v with
  | none => none
  | some r => numField r stat

/-- Modelled from the spec: the rendered sentence for a statistic query —
value with two decimals and the unit on a hit (§4.2 output composition),
the "no data" message on a miss (§7 "Statistic not available"). -/
def statResponse (name v stat : String) : String :=
  match getVarStats name v with
  | none => "No hay datos de " ++ v ++ " para " ++ name ++ "."
  | some r =>
    match numField r stat with
    | none => "No hay datos de " ++ v ++ " para " ++ name ++ "."
    | some q => "La estadística " ++ stat ++ " de " ++ v ++ " en " ++ name ++
        " es " ++ format2 q ++ " " ++ unitField r ++ "."

/-! ## Conversational state (st.session_state) and its initialization -/

/-- One chat message: `{"role": ..., "content": ...}`. -/
structure Message where
  role : String
  content : String
deriving DecidableEq

/-- The chatbot's live session state: `st.session_state.chat_stage` and
`st.session_state.messages`. -/
structure ChatState where
  chat_stage : String
  messages : List Message
deriving DecidableEq

/-- `st.session_state` before the chatbot section runs: either field may
not exist yet (`none`). -/
structure SessionState where
  chat_stage : Option String
  messages : Option (List Message)
deriving DecidableEq

/-- The seeded assistant greeting. -/
def seedGreeting : Message :=
  { role := "assistant", content := "¡Hola! Soy EcoBot. ¿En qué te puedo ayudar hoy? 😊" }

/-- The two `if "..." not in st.session_state` initialization blocks
(app_streamlit.py lines 1064-1072): each field is created only when
absent. -/
def initializeChat (s : SessionState) : SessionState :=
  let s1 := match s.chat_stage with
    | none => { s with chat_stage := some "inicio" }
    | some _ => s
  match s1.messages with
  | none => { s1 with messages := some [seedGreeting] }
  | some _ => s1

/-- The fully initialized state of a fresh session. -/
def freshChat : ChatState := { chat_stage := "inicio", messages := [seedGreeting] }

/-! ## The stage router (the chatbot's if/elif chain, lines 1094-1289) -/

/-- What one stage branch does when it renders: `appends` are the
assistant texts it appends to `st.session_state.messages` on a full
(button-less) render; `preClickAppends` are those of them whose append
statement stands before the branch's buttons, so that the script run
which processes a click on one of this stage's buttons re-executes them
before `handle_rerun` aborts it (in `navegacion`, `estaciones` and
`stats_si` the append precedes the buttons, lines 1126, 1171 and 1219; in
`racimo` and the detail stages it stands after them, lines 1193, 1231 and
1280, and is skipped on the click run); `blocks` are the markdown blocks
written to the page, `buttons` the labels offered. -/
structure StageView where
  appends : List String
  preClickAppends : List String
  blocks : List String
  buttons : List String
deriving DecidableEq

/-- `response_nav`, the navigation guide (lines 1112-1124). -/
def response_nav : String :=
  "¡Claro! Aquí tienes una guía rápida de la aplicación:\n\nPuedes ver el menú principal en la **barra lateral izquierda**.\n\n- **Inicio:** Es la portada con la bienvenida y la descripción de las variables.\n- **Mapa de Estaciones:** Muestra la ubicación geográfica de todos los sensores RACiMo en un mapa interactivo con un índice numérico.\n- **Análisis por Estación:** ¡La sección más importante! Aquí puedes:\n    1.  Seleccionar una variable (PM2.5, Temperatura, etc.).\n    2.  Elegir una estación específica.\n    3.  Filtrar por mes.\n    ...y ver el gráfico detallado con sus estadísticas (Máx, Mín, Media).\n- **Chatbot:** ¡Soy yo! Estoy aquí para ayudarte.\n- **Equipo:** Conoce a los creadores de este dashboard."

/-- `response_est`, the station list reply (line 1168). -/
def response_est : String :=
  "Actualmente monitoreamos **" ++ toString station_count ++
    " estaciones** de la red RACiMo en Santander.\n\n" ++ numbered_list_str_stations ++
    "\n\n---\n¿Te gustaría ver un resumen de las estadísticas (Máx/Mín/Media) de todas estas estaciones?"

/-- `response_racimo`, the data-source reply (lines 1183-1188). -/
def response_racimo : String :=
  "Todos nuestros datos provienen de la **Red Ambiental Ciudadana de Monitoreo (RACiMo)**. Son una fuente increíble de información ambiental para Santander.\n\nPuedes visitar su sitio oficial aquí:\n[https://class.redclara.net/halley/moncora/intro.html](https://class.redclara.net/halley/moncora/intro.html)"

/-- The five main-menu button labels of the `inicio` stage. -/
def inicioButtons : List String :=
  ["¿Cómo navegar? 🧭", "Entender Gráficos 📈", "Entender Variables 📚",
   "Info de Estaciones 📡", "Fuente de Datos 🔗"]

/-- The five chart-type button labels of the `graficos` stage. -/
def chartButtons : List String :=
  ["Gráfico de Línea", "Gráfico de Área", "Mapa de Calor", "Rosa de Vientos", "Bandas ICA"]

/-- The variable buttons of the `variables` stage: one per key of
`VARIABLE_INDEX_MAP`, labelled `variable_friendly_map.get(key, key)`. -/
def variableButtons : List String :=
  VARIABLE_INDEX_MAP.map (fun p => (variable_friendly_map.lookup p.2).getD p.2)

/-- One line of the full statistics summary (`stat_output`, lines
1207-1214).  The `.getD` defaults model Python's direct dict indexing;
every dict of `STATION_STATS_DATA` carries the keys each branch reads. -/
def statLine (varKey : String) (r : List (String × FieldVal)) : String :=
  let var_name := (variable_friendly_map.lookup varKey).getD (capitalizeStr varKey)
  let unit := unitField r
  if varKey = "precipitacion" then
    "**" ++ var_name ++ ":** Total " ++ format2 ((numField r "sum").getD 0) ++ " " ++ unit ++
      ", Máx (15min) " ++ format2 ((numField r "max").getD 0) ++ " " ++ unit ++ "."
  else
    "**" ++ var_name ++ " (" ++ unit ++ "):** Máx " ++ format2 ((numField r "max").getD 0) ++
      ", Mín " ++ format2 ((numField r "min").getD 0) ++
      ", Media " ++ format2 ((numField r "mean").getD 0) ++ "."

/-- The markdown blocks the `stats_si` stage writes for one station
(lines 1201-1217). -/
def stationSummaryBlocks (name : String) (p : StationProfile) : List String :=
  ["#### 📍 " ++ name,
   "<small>(Lat: " ++ format6 p.latitud ++ ", Lon: " ++ format6 p.longitud ++ ")</small>",
   joinWith "\n\n" (p.stats.map (fun vr => statLine vr.1 vr.2)),
   "---"]

/-- All markdown blocks of the `stats_si` stage. -/
def statsSummaryBlocks : List String :=
  "Aquí tienes el resumen estadístico (Máx/Mín/Media) de todo el periodo para cada estación:" ::
    (STATION_STATS_DATA.map (fun sp => stationSummaryBlocks sp.1 sp.2)).flatten

/-- The assistant prompt of the `graficos` stage (rendered, not appended). -/
def graficosPrompt : String :=
  "¡Perfecto! Estos son los tipos de gráficos que usamos en la sección 'Análisis por Estación'. Haz clic en uno para saber cómo leerlo:"

/-- The assistant prompt of the `variables` stage (rendered, not appended). -/
def variablesPrompt : String :=
  "¡Genial! Estas son las " ++ toString VARIABLE_INDEX_MAP.length ++
    " variables que analizamos. Haz clic en una para saber qué significa:"

/-- One pass of the chatbot's if/elif chain over `chat_stage`, in source
order: what the matching branch appends, renders and offers — `none` when
no branch matches (the source's final `else`). -/
def branchOf (stage : String) : Option StageView :=
  if stage = "inicio" then
    some { appends := [], preClickAppends := [], blocks := ["---"], buttons := inicioButtons }
  else if stage = "navegacion" then
    some { appends := [response_nav], preClickAppends := [response_nav],
           blocks := [response_nav], buttons := ["← Volver al menú"] }
  else if stage = "graficos" then
    some { appends := [], preClickAppends := [], blocks := [graficosPrompt],
           buttons := chartButtons ++ ["← Volver al menú"] }
  else if stage = "variables" then
    some { appends := [], preClickAppends := [], blocks := [variablesPrompt],
           buttons := variableButtons ++ ["← Volver al menú"] }
  else if stage = "estaciones" then
    some { appends := [response_est], preClickAppends := [response_est],
           blocks := [response_est],
           buttons := ["Sí, mostrar estadísticas", "No, gracias", "← Volver al menú"] }
  else if stage = "racimo" then
    some { appends := [response_racimo], preClickAppends := [],
           blocks := [response_racimo], buttons := ["← Volver al menú"] }
  else if stage = "stats_si" then
    some { appends := ["*(Se mostró el resumen estadístico)*"],
           preClickAppends := ["*(Se mostró el resumen estadístico)*"],
           blocks := statsSummaryBlocks, buttons := ["← Volver al menú"] }
  else
    match VARIABLE_DESCRIPTIONS.lookup stage with
    | some d =>
      some { appends := [d], preClickAppends := [], blocks := [d],
             buttons := ["← Volver a Variables"] }
    | none =>
      match CHART_DESCRIPTIONS.lookup stage with
      | some c =>
        some { appends := [c.title ++ "\n" ++ c.description], preClickAppends := [],
               blocks := ["### " ++ c.title, c.description],
               buttons := ["← Volver a Gráficos"] }
      | none => none

/-- Append assistant messages for each text of `l`. -/
def appendAssistantAll (s : ChatState) (l : List String) : ChatState :=
  { s with messages := s.messages ++ l.map (fun c => { role := "assistant", content := c }) }

/-- The outcome of one render of the chatbot body: the state after the
branch's appends, plus what was shown. -/
structure Rendered where
  state : ChatState
  blocks : List String
  buttons : List String
deriving DecidableEq

/-- One render pass: run the branch selected by `chat_stage`, `none` when
the final `else` is reached. -/
def renderStageOnce (s : ChatState) : Option Rendered :=
  (branchOf s.chat_stage).map
    (fun b => { state := appendAssistantAll s b.appends, blocks := b.blocks, buttons := b.buttons })

/-- A full render of the chatbot body: when no branch matches, the
source's final `else` sets `chat_stage = "inicio"` and forces `st.rerun()`,
so the page is rendered again with the reset stage (lines 1282-1289).
The last default is unreachable (`branchOf "inicio"` always matches). -/
def routeStage (s : ChatState) : Rendered :=
  match renderStageOnce s with
  | some r => r
  | none =>
    match renderStageOnce { s with chat_stage := "inicio" } with
    | some r => r
    | none => { state := { s with chat_stage := "inicio" }, blocks := [], buttons := [] }

/-- Every stage tag some branch of the chain matches. -/
def knownStageTags : List String :=
  ["inicio", "navegacion", "graficos", "variables", "estaciones", "racimo", "stats_si"] ++
    VARIABLE_DESCRIPTIONS.map Prod.fst ++ CHART_DESCRIPTIONS.map Prod.fst

/-- `handle_option(option)` (lines 1084-1087): set the stage and append the
user's choice as a user message. -/
def handle_option (s : ChatState) (option : String) : ChatState :=
  { chat_stage := option,
    messages := s.messages ++ [{ role := "user", content := option }] }

/-- The assistant texts re-appended by the script run that processes a
click while `stage` is showing: streamlit reruns the whole script on the
click, the branch re-executes from the top, and every append that stands
before the clicked button runs again before `handle_rerun` raises (all of
a branch's buttons stand after all of its pre-button appends, so this
does not depend on which button was clicked).  Empty for unknown tags,
which offer no buttons. -/
def preClickAppendsOf (stage : String) : List String :=
  ((branchOf stage).getD
    { appends := [], preClickAppends := [], blocks := [], buttons := [] }).preClickAppends

/-- The click-processing script rerun, up to the point `handle_rerun`
aborts it: streamlit reruns the whole script on a button click, so the
departing stage's branch re-executes and its pre-button appends run
again. -/
def clickRun (s : ChatState) : ChatState :=
  appendAssistantAll s (preClickAppendsOf s.chat_stage)

/-- One resolved button turn continued: after the click run's re-appends,
`handle_rerun(option)` sets the stage, appends the user message and aborts
that run (lines 1084-1092); the following fresh run renders the new stage
in full. -/
def doTurn (s : ChatState) (option : String) : ChatState :=
  (routeStage (handle_option (clickRun s) option)).state

/-- A sequence of button turns. -/
def runTurns (s : ChatState) (options : List String) : ChatState :=
  options.foldl doTurn s

/-- The assistant texts the stage tag's branch appends on a render (empty
for the menu stages and for unknown tags, which re-render `inicio`). -/
def appendsOf (stage : String) : List String :=
  ((branchOf stage).getD
    { appends := [], preClickAppends := [], blocks := [], buttons := [] }).appends

/-- The stage stored after a turn whose clicked tag is `option`: the tag
itself, unless no branch matches it, in which case the fallback resets it
to `inicio`. -/
def stageAfterTurn (option : String) : String :=
  if (branchOf option).isSome then option else "inicio"

/-- Transcript growth of a turn sequence starting at `stage`: each turn
re-appends the departing stage's pre-button assistant texts, appends one
user message, and appends the target stage's assistant texts. -/
def growthFrom (stage : String) : List String → Nat
  | [] => 0
  | o :: rest =>
    (preClickAppendsOf stage).length + 1 + (appendsOf o).length +
      growthFrom (stageAfterTurn o) rest

/-- The stage stored after a whole turn sequence. -/
def stageEnd (stage : String) : List String → String
  | [] => stage
  | o :: rest => stageEnd (stageAfterTurn o) rest

/-! ## The free-text intent resolver

The file under verification is the button-driven variant of the chatbot:
the free-text entry points `resolveIntent` / `respondTo` that the spec
describes (§4.2, §6) are not part of this file's source.  They are
modelled here from the spec's algorithm, over the tables the source does
define (`unique_stations`, `station_index_map`, `number_word_map_stations`,
`VAR_MAP_QUERY`, `number_word_map_vars`, `VARIABLE_INDEX_MAP`,
`STATION_STATS_DATA`). -/

/-- The result of resolving one piece of user text (spec §3
`IntentMatch`). -/
structure IntentMatch where
  station : Option String
  «variable» : Option String
  statistic : Option String
  topicTag : Option String
deriving DecidableEq

/-- Modelled from the spec: §4.2 step 1 — scan the fixed station list; the
first station whose full name occurs (case-insensitively) in the input
binds `station`. -/
def findStationByName (low : String) : Option String :=
  unique_stations.find? (fun name => strContains low (lowerStr name))

/-- Modelled from the spec: §4.2 step 2 — only when the input mentions
"estación"/"station", the first token that resolves through
`number_word_map_stations` to a valid index binds the station at that
position of `station_index_map`. -/
def findStationByOrdinal (low : String) : Option String :=
  if strContains low "estación" || strContains low "station" then
    ((splitOnChar ' ' low.data).filterMap (fun t =>
      (number_word_map_stations.lookup (String.mk t)).bind
        (fun n => station_index_map.lookup n))).head?
  else none

/-- Modelled from the spec: §4.2 step 3 — first keyword of `VAR_MAP_QUERY`
(in table order) occurring in the input binds the variable. -/
def findVariableKeyword (low : String) : Option String :=
  (VAR_MAP_QUERY.find? (fun p => strContains low p.1)).map Prod.snd

/-- Modelled from the spec: §4.2 step 4 — variable by ordinal, only when
the input mentions "variable". -/
def findVariableByOrdinal (low : String) : Option String :=
  if strContains low "variable" then
    ((splitOnChar ' ' low.data).filterMap (fun t =>
      (number_word_map_vars.lookup (String.mk t)).bind
        (fun n => VARIABLE_INDEX_MAP.lookup n))).head?
  else none

/-- Modelled from the spec: §4.2 step 5 — the fixed statistic keyword
table. -/
def STAT_KEYWORDS : List (String × String) := [
  ("máxima", "max"), ("maxima", "max"), ("mínima", "min"), ("minima", "min"),
  ("media", "mean"), ("promedio", "mean"), ("total", "sum"), ("sumatoria", "sum")]

/-- Modelled from the spec: first statistic keyword occurring in the input. -/
def findStatistic (low : String) : Option String :=
  (STAT_KEYWORDS.find? (fun p => strContains low p.1)).map Prod.snd

/-- Modelled from the spec: §4.2 step 6 — topic fallback keywords
(greetings, farewells, "mapa", "animación", "análisis"/"gráfico",
thanks), each mapping to a fixed topic tag. -/
def TOPIC_KEYWORDS : List (String × String) := [
  ("hola", "saludo"), ("buenos días", "saludo"), ("adiós", "despedida"),
  ("chao", "despedida"), ("mapa", "mapa"), ("animación", "animacion"),
  ("análisis", "analisis"), ("gráfico", "analisis"), ("gracias", "agradecimiento")]

/-- Modelled from the spec: first topic keyword occurring in the input. -/
def findTopic (low : String) : Option String :=
  (TOPIC_KEYWORDS.find? (fun p => strContains low p.1)).map Prod.snd

/-- Modelled from the spec: `resolveIntent(text) -> IntentMatch` — the
ordered, case-insensitive, first-match-wins resolution of §4.2. -/
def resolveIntent (input : String) : IntentMatch :=
  let low := lowerStr input
  { station :=
      match findStationByName low with
      | some s => some s
      | none => findStationByOrdinal low,
    «variable» :=
      match findVariableKeyword low with
      | some v => some v
      | none => findVariableByOrdinal low,
    statistic := findStatistic low,
    topicTag := findTopic low }

/-- Modelled from the spec: the fixed "I don't understand" help message
(§4.2 output composition; exact text unspecified by the spec). -/
def helpMessage : String :=
  "No entendí tu pregunta. Prueba preguntando por una estación, una variable o una estadística."

/-- Modelled from the spec: the fixed canned response of a topic tag
(texts unspecified by the spec). -/
def topicResponse (tag : String) : String :=
  "Respuesta fija del tema " ++ tag ++ "."

/-- Modelled from the spec: the full-station-summary response — every
variable's available statistics for the station. -/
def fullSummaryResponse (name : String) : String :=
  match getStation name with
  | none => helpMessage
  | some p =>
    "Estadísticas de " ++ name ++ ":\n" ++
      joinWith "\n" (p.stats.map (fun vr => statLine vr.1 vr.2))

/-- Modelled from the spec: the output composition rule of §4.2 — a
specific-statistic sentence when station, variable and statistic are all
bound; a full summary when a station is bound; the variable explanation
when only a variable is bound; else a topic response or the help
message. -/
def respondTo (input : String) : String :=
  let m := resolveIntent input
  match m.station, m.«variable», m.statistic with
  | some s, some v, some k => statResponse s v k
  | some s, _, _ => fullSummaryResponse s
  | none, some v, _ => (VARIABLE_DESCRIPTIONS.lookup v).getD helpMessage
  | none, none, _ =>
    match m.topicTag with
    | some t => topicResponse t
    | none => helpMessage

/-! ## The CSV loader `load_data` (app_streamlit.py lines 19-70)

`pd.read_csv` outcomes are the three constructors of `LoadInput`: the
file is missing (`FileNotFoundError`), reading fails with some other
exception, or it yields a table, modelled column-orientedly as a list of
(header, cells-as-strings) in column order.  `pd.to_datetime` is modelled
by `parseMonth` (the only projection the source takes from the parsed
timestamps is `.dt.month`): it succeeds on `YYYY-MM-...` shaped cells and
a failure anywhere raises, which `load_data` catches into `None`.
`pd.to_numeric(..., errors='coerce')` is modelled by `parseNumeric`:
plain (optionally negative) decimal numerals parse, anything else becomes
NaN (`none`), and it never raises. -/

/-- `COLUMN_RENAME_MAP` (lines 19-30). -/
def COLUMN_RENAME_MAP : List (String × String) := [
  ("nombre_estacion", "estacion"), ("lluvia_mm", "precipitacion"),
  ("temp_ext_media_c", "temperatura"), ("temp_ext_media_C", "temperatura"),
  ("hum_ext_ult", "humedad"), ("pm_2p5_media_ugm3", "pm2_5"),
  ("aqi_media_val", "ica"), ("viento_vel_media_kmh", "viento_velocidad"),
  ("viento_dir_media_grados", "viento_direccion"),
  ("presion_nivel_mar_hpa", "presion")]

/-- `NUMERIC_COLS` (lines 33-36). -/
def NUMERIC_COLS : List String := [
  "latitud", "longitud", "temperatura", "humedad", "precipitacion",
  "pm2_5", "ica", "viento_velocidad", "viento_direccion", "presion"]

/-- `df.rename(columns=COLUMN_RENAME_MAP)` on one column name. -/
def renameCol (c : String) : String := (COLUMN_RENAME_MAP.lookup c).getD c

/-- `df.columns = [col.lower().strip() for col in df.columns]` followed by
the rename. -/
def normalizeCols (cols : List (String × List String)) : List (String × List String) :=
  cols.map (fun p => (renameCol (strTrim (lowerStr p.1)), p.2))

/-- Model of `pd.to_datetime` on one cell, keeping the month (the only
field the source uses): parses `YYYY-MM-...`, `none` on anything else. -/
def parseMonth (s : String) : Option Nat :=
  match splitOnChar '-' s.data with
  | y :: m :: _ =>
    if y.length = 4 then
      match digitsVal y, digitsVal m with
      | some _, some mo => if 1 ≤ mo ∧ mo ≤ 12 then some mo else none
      | _, _ => none
    else none
  | _ => none

/-- Unsigned decimal numeral (with optional fraction part). -/
def parseDecChars (l : List Char) : Option ℚ :=
  match splitOnChar '.' l with
  | [a] => (digitsVal a).map (fun n => mkRat n 1)
  | [a, b] =>
    match digitsVal a, digitsVal b with
    | some na, some nb => some (mkRat (na * 10 ^ b.length + nb) (10 ^ b.length))
    | _, _ => none
  | _ => none

/-- Model of `pd.to_numeric(cell, errors='coerce')`: a decimal numeral's
exact rational, `none` (NaN) otherwise; total, never raises. -/
def parseNumeric (s : String) : Option ℚ :=
  match trimChars s.data with
  | '-' :: rest => (parseDecChars rest).map Neg.neg
  | t => parseDecChars t

/-- A loaded column: untouched strings, a numerically coerced column, the
parsed timestamp column (kept as the months the source extracts), or the
derived integer `month` column. -/
inductive Col where
  | raw (cells : List String)
  | num (cells : List (Option ℚ))
  | dt (months : List Nat)
  | natCol (cells : List Nat)
deriving DecidableEq

/-- What `pd.read_csv(file_path)` can come to. -/
inductive LoadInput where
  | missingFile
  | readFailure
  | table (cols : List (String × List String))
deriving DecidableEq

/-- All cells parsed, or `none` as soon as one fails (a raising parse). -/
def allSome {α : Type} : List (Option α) → Option (List α)
  | [] => some []
  | none :: _ => none
  | some a :: rest => (allSome rest).map (fun l => a :: l)

/-- Pandas column assignment `df[name] = c`: replace the column in place
when present, append it otherwise. -/
def setCol (cols : List (String × Col)) (name : String) (c : Col) : List (String × Col) :=
  if (cols.lookup name).isSome then
    cols.map (fun p => (p.1, if p.1 = name then c else p.2))
  else cols ++ [(name, c)]

/-- `to_numeric` coercion of one column (a no-op on non-raw columns, which
the source never hits: no `NUMERIC_COLS` name is `timestamp` or `month`). -/
def coerceNumericCol : Col → Col
  | Col.raw cells => Col.num (cells.map parseNumeric)
  | c => c

/-- The renamed table as a dataframe of raw string columns. -/
def loadStage1 (renamed : List (String × List String)) : List (String × Col) :=
  renamed.map (fun p => (p.1, Col.raw p.2))

/-- The `for col in NUMERIC_COLS` coercion loop: every column whose name is
in `NUMERIC_COLS` is coerced with `to_numeric`, the rest are untouched. -/
def loadCoerce (cols : List (String × Col)) : List (String × Col) :=
  cols.map (fun p => (p.1, if p.1 ∈ NUMERIC_COLS then coerceNumericCol p.2 else p.2))

/-- The dataframe built by the `try` body once the timestamps parsed:
timestamp column replaced by its parsed form, `month` column assigned from
it, numeric columns coerced. -/
def buildDf (renamed : List (String × List String)) (months : List Nat) :
    List (String × Col) :=
  loadCoerce (setCol (setCol (loadStage1 renamed) "timestamp" (Col.dt months))
    "month" (Col.natCol months))

/-- `load_data(file_path)` (lines 39-70): `None` on a missing file, on any
read/parse exception, on a missing `timestamp` column, or on missing
`latitud`/`longitud`; otherwise the dataframe with the timestamp column
parsed, the `month` column derived from it, and every present
`NUMERIC_COLS` column coerced. -/
def load_data (input : LoadInput) : Option (List (String × Col)) :=
  match input with
  | LoadInput.missingFile => none
  | LoadInput.readFailure => none
  | LoadInput.table rawCols =>
    let renamed := normalizeCols rawCols
    match renamed.lookup "timestamp" with
    | none => none
    | some tsCells =>
      match allSome (tsCells.map parseMonth) with
      | none => none
      | some months =>
        if (renamed.lookup "latitud").isSome ∧ (renamed.lookup "longitud").isSome then
          some (buildDf renamed months)
        else none


/-! ## General association-list lemmas -/

/-- A successful `lookup` pins a member of the list. -/
theorem lookup_some_mem {β : Type} (l : List (String × β)) (k : String) (v : β)
    (h : l.lookup k = some v) : (k, v) ∈ l := by
  induction l with
  | nil => simp [List.lookup] at h
  | cons a t ih =>
    match a with
    | (k1, v1) =>
      simp only [List.lookup] at h
      by_cases hk : k = k1
      · subst hk
        simp at h
        subst h
        exact List.mem_cons_self _ _
      · have hb : (k == k1) = false := by simp [hk]
        rw [hb] at h
        exact List.mem_cons_of_mem _ (ih h)

/-- `lookup` misses a key no entry carries. -/
theorem lookup_eq_none_of_forall {β : Type} (l : List (String × β)) (k : String)
    (h : ∀ p ∈ l, p.1 ≠ k) : l.lookup k = none := by
  induction l with
  | nil => rfl
  | cons a t ih =>
    simp only [List.lookup]
    have ha := h a (List.mem_cons_self a t)
    have hb : (k == a.1) = false := by
      simp only [beq_eq_false_iff_ne, ne_eq]
      exact fun he => ha he.symm
    rw [hb]
    exact ih fun p hp => h p (List.mem_cons_of_mem a hp)

/-- `lookup` through a key-preserving value map. -/
theorem lookup_mapVal {α β : Type} (f : String → α → β) (l : List (String × α)) (k : String) :
    (l.map (fun p => (p.1, f p.1 p.2))).lookup k = (l.lookup k).map (f k) := by
  induction l with
  | nil => rfl
  | cons a t ih =>
    match a with
    | (k1, v1) =>
      simp only [List.map, List.lookup]
      by_cases hk : k = k1
      · subst hk
        simp
      · have hb : (k == k1) = false := by simp [hk]
        rw [hb]
        exact ih

/-- `lookup` over an append searches the left list first. -/
theorem lookup_append {α : Type} (l1 l2 : List (String × α)) (k : String) :
    (l1 ++ l2).lookup k =
      match l1.lookup k with
      | some v => some v
      | none => l2.lookup k := by
  induction l1 with
  | nil => rfl
  | cons a t ih =>
    match a with
    | (k1, v1) =>
      simp only [List.cons_append, List.lookup]
      by_cases hk : k = k1
      · subst hk
        simp
      · have hb : (k == k1) = false := by simp [hk]
        rw [hb]
        exact ih

/-! ## Router lemmas -/

/-- Rendering with the stage reset to `inicio` always yields the root
menu. -/
theorem renderStageOnce_inicio (s : ChatState) :
    renderStageOnce { s with chat_stage := "inicio" } =
      some { state := appendAssistantAll { s with chat_stage := "inicio" } [],
             blocks := ["---"], buttons := inicioButtons } := rfl

/-- A stage tag outside `knownStageTags` falls through every branch of the
chain. -/
theorem branchOf_eq_none_of_unknown (stage : String) (h : stage ∉ knownStageTags) :
    branchOf stage = none := by
  have h1 : ¬(stage = "inicio") := by intro e; apply h; rw [e]; decide
  have h2 : ¬(stage = "navegacion") := by intro e; apply h; rw [e]; decide
  have h3 : ¬(stage = "graficos") := by intro e; apply h; rw [e]; decide
  have h4 : ¬(stage = "variables") := by intro e; apply h; rw [e]; decide
  have h5 : ¬(stage = "estaciones") := by intro e; apply h; rw [e]; decide
  have h6 : ¬(stage = "racimo") := by intro e; apply h; rw [e]; decide
  have h7 : ¬(stage = "stats_si") := by intro e; apply h; rw [e]; decide
  have hv : VARIABLE_DESCRIPTIONS.lookup stage = none := by
    apply lookup_eq_none_of_forall
    intro p hp e
    apply h
    unfold knownStageTags
    refine List.mem_append.mpr (Or.inl (List.mem_append.mpr (Or.inr ?_)))
    rw [← e]
    exact List.mem_map_of_mem Prod.fst hp
  have hcd : CHART_DESCRIPTIONS.lookup stage = none := by
    apply lookup_eq_none_of_forall
    intro p hp e
    apply h
    unfold knownStageTags
    refine List.mem_append.mpr (Or.inr ?_)
    rw [← e]
    exact List.mem_map_of_mem Prod.fst hp
  unfold branchOf
  rw [if_neg h1, if_neg h2, if_neg h3, if_neg h4, if_neg h5, if_neg h6, if_neg h7, hv, hcd]

/-- What one full render does to the transcript: it appends exactly the
assistant texts of the (possibly reset) stage's branch. -/
theorem routeStage_messages (s : ChatState) :
    (routeStage s).state.messages =
      s.messages ++
        (appendsOf s.chat_stage).map (fun c => ({ role := "assistant", content := c } : Message)) := by
  cases hb : branchOf s.chat_stage with
  | some b =>
    have hr : renderStageOnce s =
        some { state := appendAssistantAll s b.appends, blocks := b.blocks,
               buttons := b.buttons } := by
      unfold renderStageOnce
      rw [hb]
      rfl
    unfold routeStage
    rw [hr]
    unfold appendsOf
    rw [hb]
    rfl
  | none =>
    have hr : renderStageOnce s = none := by
      unfold renderStageOnce
      rw [hb]
      rfl
    unfold routeStage
    rw [hr, renderStageOnce_inicio]
    unfold appendsOf
    rw [hb]
    rfl

/-- What one full render does to the stored stage: it keeps a matched tag
and resets an unmatched one to `inicio`. -/
theorem routeStage_stage (s : ChatState) :
    (routeStage s).state.chat_stage =
      if (branchOf s.chat_stage).isSome then s.chat_stage else "inicio" := by
  cases hb : branchOf s.chat_stage with
  | some b =>
    have hr : renderStageOnce s =
        some { state := appendAssistantAll s b.appends, blocks := b.blocks,
               buttons := b.buttons } := by
      unfold renderStageOnce
      rw [hb]
      rfl
    unfold routeStage
    rw [hr]
    simp [hb, appendAssistantAll]
  | none =>
    have hr : renderStageOnce s = none := by
      unfold renderStageOnce
      rw [hb]
      rfl
    unfold routeStage
    rw [hr, renderStageOnce_inicio]
    simp [hb, appendAssistantAll]

/-! ## The claims -/

/-- C1: for every n with 1 ≤ n ≤ station_count, the numeral token of n is in
`number_word_map_stations` and resolves to n, `station_index_map` at n is
exactly the station at position n of the lexicographically sorted station
list, and line n of the numbered station list shown to the user displays
that same station under the number n. -/
theorem C1_ordinal_station_alignment (n : Nat) (h1 : 1 ≤ n) (h2 : n ≤ station_count) :
    number_word_map_stations.lookup (toString n) = some n ∧
    station_index_map.lookup n = unique_stations[n - 1]? ∧
    numbered_lines_stations[n - 1]? =
      (unique_stations[n - 1]?).map (fun s => toString n ++ ". " ++ s) := by
  have hc : station_count = 11 := by decide
  rw [hc] at h2
  interval_cases n <;> decide

/-- Witness for C1 at n = 3. -/
theorem C1_witness :
    1 ≤ 3 ∧ 3 ≤ station_count ∧
      (number_word_map_stations.lookup (toString 3) = some 3 ∧
        station_index_map.lookup 3 = unique_stations[3 - 1]? ∧
        numbered_lines_stations[3 - 1]? =
          (unique_stations[3 - 1]?).map (fun s => toString 3 ++ ". " ++ s)) :=
  ⟨by decide, by decide, C1_ordinal_station_alignment 3 (by decide) (by decide)⟩

/-- C2: an unknown stage tag is routed exactly like the root stage: the
stored stage is reset to `"inicio"`, the rendered output is identical to
routing `"inicio"`, and the output is not blank. -/
theorem C2_unknown_stage_recovery (s : ChatState) (h : s.chat_stage ∉ knownStageTags) :
    routeStage s = routeStage { s with chat_stage := "inicio" } ∧
    (routeStage s).state.chat_stage = "inicio" ∧
    (routeStage s).blocks ≠ [] := by
  have hb := branchOf_eq_none_of_unknown s.chat_stage h
  have e1 : renderStageOnce s = none := by
    unfold renderStageOnce
    rw [hb]
    rfl
  have hmain : routeStage s = routeStage { s with chat_stage := "inicio" } := by
    unfold routeStage
    rw [e1, renderStageOnce_inicio]
  refine ⟨hmain, ?_, ?_⟩
  · rw [hmain]
    rfl
  · rw [hmain]
    exact fun hfalse => List.noConfusion hfalse

/-- Witness for C2 at the stage tag "xyz_not_a_stage". -/
theorem C2_witness :
    (({ chat_stage := "xyz_not_a_stage", messages := [] } : ChatState).chat_stage ∉
        knownStageTags) ∧
      (routeStage { chat_stage := "xyz_not_a_stage", messages := [] } =
          routeStage { chat_stage := "inicio", messages := [] } ∧
        (routeStage { chat_stage := "xyz_not_a_stage", messages := [] }).state.chat_stage =
          "inicio" ∧
        (routeStage { chat_stage := "xyz_not_a_stage", messages := [] }).blocks ≠ []) :=
  ⟨by decide,
    C2_unknown_stage_recovery { chat_stage := "xyz_not_a_stage", messages := [] } (by decide)⟩

/-- C3: session-state initialization is idempotent — when both fields
already exist it is a no-op (an in-progress conversation is never reset),
re-running it changes nothing, and a doubly initialized fresh session still
has the one seed greeting in its transcript. -/
theorem C3_initialize_idempotent (s : SessionState) :
    (s.chat_stage.isSome → s.messages.isSome → initializeChat s = s) ∧
    initializeChat (initializeChat s) = initializeChat s ∧
    (initializeChat (initializeChat { chat_stage := none, messages := none })).messages.map
        List.length = some 1 := by
  refine ⟨?_, ?_, by decide⟩
  · intro h1 h2
    match s with
    | { chat_stage := cs, messages := ms } =>
      match cs, ms with
      | some c, some m => rfl
      | some c, none => simp at h2
      | none, _ => simp at h1
  · match s with
    | { chat_stage := cs, messages := ms } =>
      match cs, ms with
      | some c, some m => rfl
      | some c, none => rfl
      | none, some m => rfl
      | none, none => rfl

/-- Witness for C3 at a session whose state already exists (stage
"graficos", a two-message transcript). -/
theorem C3_witness :
    initializeChat
        { chat_stage := some "graficos",
          messages := some [seedGreeting, { role := "user", content := "graficos" }] } =
      { chat_stage := some "graficos",
        messages := some [seedGreeting, { role := "user", content := "graficos" }] } :=
  (C3_initialize_idempotent
      { chat_stage := some "graficos",
        messages := some [seedGreeting, { role := "user", content := "graficos" }] }).1
    (by decide) (by decide)

/-- C4 counterexample: from a freshly initialized session, the single
resolved turn "Entender Gráficos" (stage tag "graficos") leaves a
transcript of length 2 — the seed greeting plus the user message — because
the `graficos` branch renders its assistant prompt without appending it, so
the claimed law `1 + 2*k` (= 3 for k = 1) fails. -/
theorem C4_counterexample :
    (runTurns freshChat ["graficos"]).messages.length = 2 ∧
      ¬((runTurns freshChat ["graficos"]).messages.length = 1 + 2 * 1) := by decide

/-- C4 as amended: the transcript is append-only — after any turn sequence
the prior transcript is a prefix and nothing is changed, reordered or
deleted — and its growth per turn is: a re-append of the departing stage's
pre-button assistant texts (the click-processing script rerun re-executes
`navegacion`, `estaciones` and `stats_si` up to their buttons, duplicating
their one appended response), plus one user message, plus the target
stage's appended assistant texts (one for `navegacion`, `estaciones`,
`racimo`, `stats_si` and the detail stages; none for the menu stages
`inicio`, `graficos`, `variables` or an unknown tag).  In particular the
turns navegacion-then-inicio from a fresh session leave 5 messages: seed,
user, assistant response, its duplicate on departure, user — so the
claimed `1 + 2*k` law fails in both directions. -/
theorem C4_amended_append_only (s : ChatState) (options : List String) :
    (∃ t, (runTurns s options).messages = s.messages ++ t) ∧
    (runTurns s options).messages.length =
      s.messages.length + growthFrom s.chat_stage options ∧
    (runTurns s options).chat_stage = stageEnd s.chat_stage options ∧
    (runTurns freshChat ["navegacion", "inicio"]).messages.length = 5 := by
  refine ?_
  have main : ∀ (options : List String) (s : ChatState),
      (∃ t, (runTurns s options).messages = s.messages ++ t) ∧
      (runTurns s options).messages.length =
        s.messages.length + growthFrom s.chat_stage options ∧
      (runTurns s options).chat_stage = stageEnd s.chat_stage options := by
    intro options
    induction options with
    | nil =>
      intro s
      exact ⟨⟨[], by simp [runTurns]⟩, by simp [runTurns, growthFrom],
        by simp [runTurns, stageEnd]⟩
    | cons o rest ih =>
      intro s
      have hrun : runTurns s (o :: rest) = runTurns (doTurn s o) rest := rfl
      have hstage : (doTurn s o).chat_stage = stageAfterTurn o := by
        unfold doTurn stageAfterTurn
        rw [routeStage_stage]
        rfl
      have hstep : (doTurn s o).messages =
          ((s.messages ++
              (preClickAppendsOf s.chat_stage).map
                (fun c => ({ role := "assistant", content := c } : Message))) ++
            [{ role := "user", content := o }]) ++
            (appendsOf o).map (fun c => ({ role := "assistant", content := c } : Message)) := by
        unfold doTurn
        rw [routeStage_messages]
        rfl
      obtain ⟨⟨t, ht⟩, hlen, hst⟩ := ih (doTurn s o)
      refine ⟨?_, ?_, ?_⟩
      · refine ⟨(preClickAppendsOf s.chat_stage).map
            (fun c => ({ role := "assistant", content := c } : Message)) ++
            [{ role := "user", content := o }] ++
            (appendsOf o).map (fun c => ({ role := "assistant", content := c } : Message)) ++
            t, ?_⟩
        rw [hrun, ht, hstep]
        simp
      · rw [hstage] at hlen
        rw [hrun, hlen, hstep]
        simp only [growthFrom, List.length_append, List.length_map,
          List.length_cons, List.length_nil]
        omega
      · rw [hstage] at hst
        rw [hrun, hst]
        rfl
  exact ⟨(main options s).1, (main options s).2.1, (main options s).2.2, by decide⟩

/-- C9: a button click carrying the tag "variables" sets the stage to
"variables", and routing that stage renders the variable menu: one button
per key of `VARIABLE_INDEX_MAP` (8 of them, in table order, with their
friendly labels) plus the back button. -/
theorem C9_variables_menu (s : ChatState) :
    (handle_option s "variables").chat_stage = "variables" ∧
    (routeStage (handle_option s "variables")).blocks = [variablesPrompt] ∧
    (routeStage (handle_option s "variables")).buttons =
      variableButtons ++ ["← Volver al menú"] ∧
    variableButtons =
      VARIABLE_INDEX_MAP.map (fun p => ((variable_friendly_map.lookup p.2).getD p.2)) ∧
    variableButtons.length = 8 ∧ VARIABLE_INDEX_MAP.length = 8 :=
  ⟨rfl, rfl, rfl, rfl, by decide, by decide⟩

/-- The `d2` encoding denotes exactly the source's decimal literals:
`d2 31 17` is `31.17`. -/
theorem d2_eq_scientific : d2 31 17 = (31.17 : ℚ) := by
  norm_num [d2, Rat.mkRat_eq_div]

/-- The coordinate encoding denotes exactly the source's decimal literals:
`mkRat (-7385138) 100000` is `-73.85138`. -/
theorem coord_eq_scientific : mkRat (-7385138) 100000 = -(73.85138 : ℚ) := by
  norm_num [Rat.mkRat_eq_div]

/-- C5 counterexample: the precipitation record of the first station has
`max`, `sum`, `mean` and `unit` but no `min` field, so the claim that every
stats record contains `min` fails. -/
theorem C5_counterexample :
    getVarStats "Barranca-RacimoOrquidea" "precipitacion" =
      some [("max", FieldVal.num (d2 30 60)), ("sum", FieldVal.num (d2 655 60)),
        ("mean", FieldVal.num (d2 0 12)), ("unit", FieldVal.str "mm")] ∧
    ((getVarStats "Barranca-RacimoOrquidea" "precipitacion").getD []).lookup "min" =
      none := by decide

/-- C5 as amended: every stats record of every station carries `max`,
`mean` and `unit`; the precipitation records carry `sum` instead of `min`
(no precipitation record has a `min` field), and every other record
carries `min` and no `sum`. -/
theorem C5_amended_record_fields (name v : String) (r : List (String × FieldVal))
    (h : getVarStats name v = some r) :
    (r.lookup "max").isSome ∧ (r.lookup "mean").isSome ∧ (r.lookup "unit").isSome ∧
    (v = "precipitacion" → (r.lookup "sum").isSome ∧ r.lookup "min" = none) ∧
    (¬(v = "precipitacion") → (r.lookup "min").isSome ∧ r.lookup "sum" = none) := by
  unfold getVarStats getStation at h
  cases hp : STATION_STATS_DATA.lookup name with
  | none => rw [hp] at h; exact absurd h (by simp)
  | some p =>
    rw [hp] at h
    replace h : p.stats.lookup v = some r := h
    have hmem := lookup_some_mem _ _ _ hp
    have hvm := lookup_some_mem _ _ _ h
    have big : ∀ sp ∈ STATION_STATS_DATA, ∀ vr ∈ sp.2.stats,
        (vr.2.lookup "max").isSome ∧ (vr.2.lookup "mean").isSome ∧
          (vr.2.lookup "unit").isSome ∧
          (vr.1 = "precipitacion" → (vr.2.lookup "sum").isSome ∧ vr.2.lookup "min" = none) ∧
          (¬(vr.1 = "precipitacion") →
            (vr.2.lookup "min").isSome ∧ vr.2.lookup "sum" = none) := by decide
    exact big (name, p) hmem (v, r) hvm

/-- The temperature record of station "Halley UIS", as it stands in
`STATION_STATS_DATA`. -/
def halleyTempStats : List (String × FieldVal) :=
  [("max", FieldVal.num (d2 31 17)), ("min", FieldVal.num (d2 22 28)),
   ("mean", FieldVal.num (d2 26 72)), ("unit", FieldVal.str "°C")]

/-- Witness for the amended C5 at the temperature record of "Halley UIS". -/
theorem C5_witness :
    getVarStats "Halley UIS" "temperatura" = some halleyTempStats ∧
      ((halleyTempStats.lookup "max").isSome ∧ (halleyTempStats.lookup "mean").isSome ∧
        (halleyTempStats.lookup "unit").isSome ∧
        ("temperatura" = "precipitacion" →
          (halleyTempStats.lookup "sum").isSome ∧ halleyTempStats.lookup "min" = none) ∧
        (¬("temperatura" = "precipitacion") →
          (halleyTempStats.lookup "min").isSome ∧ halleyTempStats.lookup "sum" = none)) :=
  ⟨by decide, C5_amended_record_fields "Halley UIS" "temperatura" halleyTempStats (by decide)⟩

/-- C6 counterexample: the `ica` record of the first station is present but
its `unit` field is the empty string, so the claim that every present
variable has a non-empty unit fails. -/
theorem C6_counterexample :
    (getVarStats "Barranca-RacimoOrquidea" "ica").isSome ∧
    ((getVarStats "Barranca-RacimoOrquidea" "ica").getD []).lookup "unit" =
      some (FieldVal.str "") := by decide

/-- `min ≤ mean ≤ max` holds of a stats record (with all three fields
present and numeric). -/
def monotoneOk (r : List (String × FieldVal)) : Bool :=
  match numField r "min", numField r "mean", numField r "max" with
  | some mn, some me, some mx => decide (mn ≤ me) && decide (me ≤ mx)
  | _, _, _ => false

/-- C6 as amended: in every stats record of every station, the unit is a
non-empty string for every variable except `ica` (whose unit is always the
empty string), and `min ≤ mean ≤ max` holds for every non-accumulating
variable (every record except precipitation). -/
theorem C6_amended_units_and_order (name v : String) (r : List (String × FieldVal))
    (h : getVarStats name v = some r) :
    (¬(v = "ica") → unitField r ≠ "") ∧
    (v = "ica" → unitField r = "") ∧
    (¬(v = "precipitacion") → monotoneOk r = true) := by
  unfold getVarStats getStation at h
  cases hp : STATION_STATS_DATA.lookup name with
  | none => rw [hp] at h; exact absurd h (by simp)
  | some p =>
    rw [hp] at h
    replace h : p.stats.lookup v = some r := h
    have hmem := lookup_some_mem _ _ _ hp
    have hvm := lookup_some_mem _ _ _ h
    have big : ∀ sp ∈ STATION_STATS_DATA, ∀ vr ∈ sp.2.stats,
        (¬(vr.1 = "ica") → unitField vr.2 ≠ "") ∧
          (vr.1 = "ica" → unitField vr.2 = "") ∧
          (¬(vr.1 = "precipitacion") → monotoneOk vr.2 = true) := by decide
    exact big (name, p) hmem (v, r) hvm

/-- Witness for the amended C6 at the temperature record of "Halley UIS". -/
theorem C6_witness :
    getVarStats "Halley UIS" "temperatura" = some halleyTempStats ∧
      ((¬("temperatura" = "ica") → unitField halleyTempStats ≠ "") ∧
        ("temperatura" = "ica" → unitField halleyTempStats = "") ∧
        (¬("temperatura" = "precipitacion") → monotoneOk halleyTempStats = true)) :=
  ⟨by decide,
    C6_amended_units_and_order "Halley UIS" "temperatura" halleyTempStats (by decide)⟩

/-- C7 counterexample: the station the claim cites as lacking wind data,
"RACiMo BarrancaAIR1.1", in fact has a `viento_velocidad` record —
as does every station of the knowledge base — and `getStatistic` returns
the number 8.59 for its wind-speed maximum, so the claim's premise class
(stations whose stats lack `viento_velocidad`) is empty in this knowledge
base. -/
theorem C7_counterexample :
    (getVarStats "RACiMo BarrancaAIR1.1" "viento_velocidad").isSome ∧
    getStatistic "RACiMo BarrancaAIR1.1" "viento_velocidad" "max" = some (d2 8 59) ∧
    (∀ sp ∈ STATION_STATS_DATA, (sp.2.stats.lookup "viento_velocidad").isSome) := by decide

/-- C7 as amended: no station of this knowledge base lacks
`viento_velocidad`; the claimed miss behavior holds for any variable that
is absent from a station's stats (for example `viento_direccion` at any
station): `getStatistic` returns an explicit `none` — never a substituted
zero — and the response rendered for the query is the "no data" message,
not a numeric value. -/
theorem C7_amended_missing_is_explicit (name v : String)
    (_h1 : (getStation name).isSome) (h2 : getVarStats name v = none) :
    getStatistic name v "max" = none ∧
    statResponse name v "max" = "No hay datos de " ++ v ++ " para " ++ name ++ "." := by
  unfold getStatistic statResponse
  rw [h2]
  exact ⟨rfl, rfl⟩

/-- Witness for the amended C7: wind direction has no stats record at
"RACiMo BarrancaAIR1.1". -/
theorem C7_witness :
    getStatistic "RACiMo BarrancaAIR1.1" "viento_direccion" "max" = none ∧
    statResponse "RACiMo BarrancaAIR1.1" "viento_direccion" "max" =
      "No hay datos de " ++ "viento_direccion" ++ " para " ++ "RACiMo BarrancaAIR1.1" ++ "." :=
  C7_amended_missing_is_explicit "RACiMo BarrancaAIR1.1" "viento_direccion"
    (by decide) (by decide)

/-- C8: resolving "temperatura máxima de Halley UIS" binds the station
"Halley UIS", the variable `temperatura` and the statistic `max`, and the
rendered response contains "31.17 °C", the knowledge base's value with its
unit. -/
theorem C8_halley_max_temperature :
    resolveIntent "temperatura máxima de Halley UIS" =
      { station := some "Halley UIS", «variable» := some "temperatura",
        statistic := some "max", topicTag := none } ∧
    strContains (respondTo "temperatura máxima de Halley UIS") "31.17 °C" = true := by decide

/-! ## Lookup behavior of the dataframe construction -/

/-- After `setCol`, the assigned column is present with the assigned value
(whether it replaced an existing column or was appended). -/
theorem setCol_lookup_self (cols : List (String × Col)) (name : String) (c : Col) :
    (setCol cols name c).lookup name = some c := by
  unfold setCol
  by_cases hs : (cols.lookup name).isSome = true
  · rw [if_pos hs, lookup_mapVal (fun k v => if k = name then c else v)]
    obtain ⟨a, ha⟩ := Option.isSome_iff_exists.mp hs
    rw [ha]
    simp
  · rw [if_neg hs, lookup_append]
    have hn : cols.lookup name = none := by
      cases hc : cols.lookup name with
      | none => rfl
      | some a => rw [hc] at hs; exact absurd rfl hs
    rw [hn]
    simp [List.lookup]

/-- `setCol` leaves every other column untouched. -/
theorem setCol_lookup_other (cols : List (String × Col)) (name : String) (c : Col)
    (k : String) (h : ¬(k = name)) :
    (setCol cols name c).lookup k = cols.lookup k := by
  unfold setCol
  by_cases hs : (cols.lookup name).isSome = true
  · rw [if_pos hs, lookup_mapVal (fun k v => if k = name then c else v)]
    cases cols.lookup k with
    | none => rfl
    | some a => simp [if_neg h]
  · rw [if_neg hs, lookup_append]
    cases hc : cols.lookup k with
    | some a => rfl
    | none =>
      have hb : (k == name) = false := by simp [h]
      simp [List.lookup, hb]

/-- `loadCoerce` coerces exactly the `NUMERIC_COLS` columns, by name. -/
theorem loadCoerce_lookup (cols : List (String × Col)) (k : String) :
    (loadCoerce cols).lookup k =
      (cols.lookup k).map (fun v => if k ∈ NUMERIC_COLS then coerceNumericCol v else v) :=
  lookup_mapVal (fun k v => if k ∈ NUMERIC_COLS then coerceNumericCol v else v) cols k

/-- The built dataframe holds the parsed timestamp column. -/
theorem buildDf_lookup_timestamp (renamed : List (String × List String)) (months : List Nat) :
    (buildDf renamed months).lookup "timestamp" = some (Col.dt months) := by
  unfold buildDf
  rw [loadCoerce_lookup, setCol_lookup_other _ _ _ _ (by decide), setCol_lookup_self]
  simp only [Option.map_some']
  rw [if_neg (by decide : ¬(("timestamp" : String) ∈ NUMERIC_COLS))]

/-- The built dataframe holds the derived month column. -/
theorem buildDf_lookup_month (renamed : List (String × List String)) (months : List Nat) :
    (buildDf renamed months).lookup "month" = some (Col.natCol months) := by
  unfold buildDf
  rw [loadCoerce_lookup, setCol_lookup_self]
  simp only [Option.map_some']
  rw [if_neg (by decide : ¬(("month" : String) ∈ NUMERIC_COLS))]

/-- Every other column of the built dataframe: coerced when its name is in
`NUMERIC_COLS`, its raw cells otherwise. -/
theorem buildDf_lookup_other (renamed : List (String × List String)) (months : List Nat)
    (name : String) (cells : List String) (h1 : ¬(name = "timestamp"))
    (h2 : ¬(name = "month")) (hc : renamed.lookup name = some cells) :
    (buildDf renamed months).lookup name =
      some (if name ∈ NUMERIC_COLS then Col.num (cells.map parseNumeric)
        else Col.raw cells) := by
  unfold buildDf
  rw [loadCoerce_lookup, setCol_lookup_other _ _ _ _ h2, setCol_lookup_other _ _ _ _ h1]
  have hL1 : (loadStage1 renamed).lookup name = some (Col.raw cells) := by
    have := lookup_mapVal (fun _ v => Col.raw v) renamed name
    unfold loadStage1
    rw [this, hc]
    rfl
  rw [hL1]
  simp only [Option.map_some']
  by_cases hn : name ∈ NUMERIC_COLS
  · rw [if_pos hn, if_pos hn]
    rfl
  · rw [if_neg hn, if_neg hn]

/-- C10: `load_data` never raises: it yields `none` exactly on a missing
file, a read failure, a missing `timestamp` column (after lowercasing and
renaming), a timestamp cell the datetime parse rejects, or missing
`latitud`/`longitud` columns; and whenever it yields a dataframe, the
`timestamp` column is parsed, a `month` column derived from it is present,
and every `NUMERIC_COLS` column present in the table is coerced to numeric
cells (non-parsable cells becoming NaN/`none`). -/
theorem C10_load_data_total_and_shaped (input : LoadInput) :
    (input = LoadInput.missingFile → load_data input = none) ∧
    (input = LoadInput.readFailure → load_data input = none) ∧
    (∀ rawCols, input = LoadInput.table rawCols →
      ((load_data input = none ↔
        ((normalizeCols rawCols).lookup "timestamp" = none ∨
          (∃ tsCells, (normalizeCols rawCols).lookup "timestamp" = some tsCells ∧
            allSome (tsCells.map parseMonth) = none) ∨
          ¬(((normalizeCols rawCols).lookup "latitud").isSome = true ∧
            ((normalizeCols rawCols).lookup "longitud").isSome = true))) ∧
      (∀ df, load_data input = some df →
        (∃ months : List Nat,
          df.lookup "timestamp" = some (Col.dt months) ∧
          df.lookup "month" = some (Col.natCol months)) ∧
        (∀ name cells, name ∈ NUMERIC_COLS →
          (normalizeCols rawCols).lookup name = some cells →
          df.lookup name = some (Col.num (cells.map parseNumeric)))))) := by
  refine ⟨fun h => by subst h; rfl, fun h => by subst h; rfl, ?_⟩
  intro rawCols he
  subst he
  cases hts : (normalizeCols rawCols).lookup "timestamp" with
  | none =>
    have hld : load_data (LoadInput.table rawCols) = none := by
      simp only [load_data, hts]
    refine ⟨?_, ?_⟩
    · rw [hld]
      exact ⟨fun _ => Or.inl rfl, fun _ => rfl⟩
    · intro df hdf
      rw [hld] at hdf
      exact absurd hdf (by simp)
  | some tsCells =>
    cases hall : allSome (tsCells.map parseMonth) with
    | none =>
      have hld : load_data (LoadInput.table rawCols) = none := by
        simp only [load_data, hts, hall]
      refine ⟨?_, ?_⟩
      · rw [hld]
        exact ⟨fun _ => Or.inr (Or.inl ⟨tsCells, rfl, hall⟩), fun _ => rfl⟩
      · intro df hdf
        rw [hld] at hdf
        exact absurd hdf (by simp)
    | some months =>
      by_cases hcond : ((normalizeCols rawCols).lookup "latitud").isSome = true ∧
          ((normalizeCols rawCols).lookup "longitud").isSome = true
      · have hld : load_data (LoadInput.table rawCols) =
            some (buildDf (normalizeCols rawCols) months) := by
          simp only [load_data, hts, hall]
          rw [if_pos hcond]
        refine ⟨?_, ?_⟩
        · rw [hld]
          constructor
          · intro hfalse
            exact absurd hfalse (by simp)
          · rintro (h | ⟨tc, htc, hac⟩ | h)
            · exact absurd h (by simp)
            · injection htc with htc'
              subst htc'
              rw [hall] at hac
              exact absurd hac (by simp)
            · exact absurd hcond h
        · intro df hdf
          rw [hld] at hdf
          injection hdf with hdf'
          subst hdf'
          refine ⟨⟨months, buildDf_lookup_timestamp _ _, buildDf_lookup_month _ _⟩, ?_⟩
          intro name cells hnc hcell
          have hn1 : ¬(name = "timestamp") := by
            intro e
            subst e
            revert hnc
            decide
          have hn2 : ¬(name = "month") := by
            intro e
            subst e
            revert hnc
            decide
          rw [buildDf_lookup_other _ _ _ _ hn1 hn2 hcell, if_pos hnc]
      · have hld : load_data (LoadInput.table rawCols) = none := by
          simp only [load_data, hts, hall]
          rw [if_neg hcond]
        refine ⟨?_, ?_⟩
        · rw [hld]
          exact ⟨fun _ => Or.inr (Or.inr hcond), fun _ => rfl⟩
        · intro df hdf
          rw [hld] at hdf
          exact absurd hdf (by simp)

/-- The example CSV table of the C10 witness: a shuffled-case timestamp
header, coordinates, one renamable numeric column and one extra column. -/
def exTable : List (String × List String) :=
  [("Timestamp ", ["2023-09-01 00:15"]), ("latitud", ["7.1"]), ("longitud", ["-73.5"]),
   ("Temp_ext_media_C", ["25.3"]), ("extra", ["x"])]

/-- The dataframe `load_data` produces from `exTable`. -/
def exDf : List (String × Col) :=
  [("timestamp", Col.dt [9]), ("latitud", Col.num [some (mkRat 71 10)]),
   ("longitud", Col.num [some (-(mkRat 735 10))]),
   ("temperatura", Col.num [some (mkRat 253 10)]),
   ("extra", Col.raw ["x"]), ("month", Col.natCol [9])]

/-- Witness for C10 at `exTable`: the load succeeds and the loaded frame
has the parsed timestamp, the derived month column and the coerced
temperature column. -/
theorem C10_witness :
    load_data (LoadInput.table exTable) = some exDf ∧
      (exDf.lookup "month" = some (Col.natCol [9]) ∧
        exDf.lookup "temperatura" =
          some (Col.num (["25.3"].map parseNumeric))) := by
  refine ⟨by decide, ?_, ?_⟩
  · have h := (((C10_load_data_total_and_shaped (LoadInput.table exTable)).2.2 exTable rfl).2
      exDf (by decide)).1
    obtain ⟨months, hts, hm⟩ := h
    have he : exDf.lookup "timestamp" = some (Col.dt [9]) := by decide
    rw [he] at hts
    injection hts with hts'
    injection hts' with hts''
    rw [hts'']
    exact hm
  · exact (((C10_load_data_total_and_shaped (LoadInput.table exTable)).2.2 exTable rfl).2
      exDf (by decide)).2 "temperatura" ["25.3"] (by decide) (by decide)
